import Mathlib

/-!
Shallow embedding of `src/scaffoldfitter/fitterstepalign.py`, the alignment
fitter step of the scaffoldfitter repository.

Modelling conventions:
* Python dicts are association lists in insertion order (Python 3.7+ dicts
  preserve insertion order and have unique keys).
* The Python runtime values stored by this module (bools, ints, floats and
  lists of numbers) are the inductive `JValue`; float values are modelled as
  rationals, real-valued geometry as `ℝ`.
* `assert` failures are explicit error results (`Except` or an error-message
  component); `print` diagnostics are an accumulated message list.
* External collaborators (the zinc field engine, the nonlinear least-squares
  optimiser, and `create_field_euler_angles_rotation_matrix` from
  `opencmiss.utils`, which is not part of this repository) are abstracted as
  function parameters, or modelled from the spec where noted.
-/

namespace ScaffoldFitter

/-- A Python number as it occurs in this module: `int` or `float`
(`bool` is kept separate, in `JValue`).  Float values are modelled as
rationals. -/
inductive PyNum where
  | int : Int → PyNum
  | float : ℚ → PyNum
deriving DecidableEq

/-- Numeric value of a Python number; `int` and `float` compare by value. -/
def PyNum.toRat : PyNum → ℚ
  | .int n => (n : ℚ)
  | .float q => q

/-- Python `==` on numbers: `2 == 2.0` is `True`. -/
def PyNum.pyEq (a b : PyNum) : Bool := a.toRat == b.toRat

/-- A Python runtime value of the shapes stored in this step's settings:
booleans, numbers, and lists of numbers. -/
inductive JValue where
  | bool : Bool → JValue
  | num : PyNum → JValue
  | numList : List PyNum → JValue
deriving DecidableEq

/-- Python `==` on lists of numbers: element-wise value equality. -/
def pyNumListEq : List PyNum → List PyNum → Bool
  | [], [] => true
  | x :: xs, y :: ys => x.pyEq y && pyNumListEq xs ys
  | _, _ => false

/-- Python `==` on the values above.  `bool` is a subclass of `int` in
Python, so `True == 1` and `True == 1.0`; a list never equals a non-list. -/
def JValue.pyEq : JValue → JValue → Bool
  | .bool a, .bool b => a == b
  | .bool a, .num n => PyNum.pyEq (.int (if a then 1 else 0)) n
  | .num n, .bool b => PyNum.pyEq n (.int (if b then 1 else 0))
  | .num m, .num n => m.pyEq n
  | .numList xs, .numList ys => pyNumListEq xs ys
  | _, _ => false

/-- Python `isinstance(x, float)`: true only for an actual float, not for an
`int` (and not for a `bool`). -/
def JValue.isFloatInstance : JValue → Bool
  | .num (.float _) => true
  | _ => false

/-- The settings state of `FitterStepAlign` (`__init__`, lines 53-58).
Fields hold Python values because `decodeSettingsJSONDict` stores whatever
the dict contains, without conversion. -/
structure FitterStepAlign where
  alignMarkers : JValue
  rotation : JValue
  scale : JValue
  translation : JValue
deriving DecidableEq

/-- `FitterStepAlign._jsonTypeId`. -/
def jsonTypeId : String := "_FitterStepAlign"

/-- `FitterStepAlign.__init__`: `False`, `[0.0, 0.0, 0.0]`, `1.0`,
`[0.0, 0.0, 0.0]`. -/
def FitterStepAlign.init : FitterStepAlign :=
  { alignMarkers := .bool false,
    rotation := .numList [.float 0, .float 0, .float 0],
    scale := .num (.float 1),
    translation := .numList [.float 0, .float 0, .float 0] }

/-- Python dict lookup `dct[k]` as an option, over an insertion-ordered
association list. -/
def dictLookup (dct : List (String × JValue)) (k : String) : Option JValue :=
  (dct.find? (fun p => p.1 == k)).map (fun p => p.2)

/-- `FitterStepAlign.encodeSettingsJSONDict` (lines 74-85). -/
def FitterStepAlign.encodeSettingsJSONDict (s : FitterStepAlign) : List (String × JValue) :=
  [(jsonTypeId, .bool true),
   ("alignMarkers", s.alignMarkers),
   ("rotation", s.rotation),
   ("scale", s.scale),
   ("translation", s.translation)]

/-- `FitterStepAlign.decodeSettingsJSONDict` (lines 64-72): asserts the type
id key is present, then reads the four fields in order, storing them
unconverted; a missing field raises `KeyError`. -/
def FitterStepAlign.decodeSettingsJSONDict (dct : List (String × JValue)) :
    Except String FitterStepAlign :=
  if (dictLookup dct jsonTypeId).isSome then
    match dictLookup dct "alignMarkers" with
    | none => .error "KeyError: alignMarkers"
    | some a =>
      match dictLookup dct "rotation" with
      | none => .error "KeyError: rotation"
      | some r =>
        match dictLookup dct "scale" with
        | none => .error "KeyError: scale"
        | some sc =>
          match dictLookup dct "translation" with
          | none => .error "KeyError: translation"
          | some t =>
            .ok { alignMarkers := a, rotation := r, scale := sc, translation := t }
  else .error "AssertionError"

/-- `FitterStepAlign.setAlignMarkers` (lines 90-98). -/
def FitterStepAlign.setAlignMarkers (s : FitterStepAlign) (alignMarkers : JValue) :
    FitterStepAlign × Bool :=
  if !(JValue.pyEq alignMarkers s.alignMarkers) then
    ({ s with alignMarkers := alignMarkers }, true)
  else (s, false)

/-- `FitterStepAlign.setRotation` (lines 103-115): asserts the list has
length 3, then compares by Python list equality (element-wise values, not
object identity); `copy.copy` is the identity in this pure model. -/
def FitterStepAlign.setRotation (s : FitterStepAlign) (rotation : List PyNum) :
    Except String (FitterStepAlign × Bool) :=
  if rotation.length == 3 then
    .ok (if !(JValue.pyEq (.numList rotation) s.rotation) then
      ({ s with rotation := .numList rotation }, true)
    else (s, false))
  else .error "FitterStepAlign:  Invalid rotation"

/-- `FitterStepAlign.setScale` (lines 120-128): no assertion at all. -/
def FitterStepAlign.setScale (s : FitterStepAlign) (scale : JValue) :
    FitterStepAlign × Bool :=
  if !(JValue.pyEq scale s.scale) then ({ s with scale := scale }, true)
  else (s, false)

/-- `FitterStepAlign.setTranslation` (lines 133-142). -/
def FitterStepAlign.setTranslation (s : FitterStepAlign) (translation : List PyNum) :
    Except String (FitterStepAlign × Bool) :=
  if translation.length == 3 then
    .ok (if !(JValue.pyEq (.numList translation) s.translation) then
      ({ s with translation := .numList translation }, true)
    else (s, false))
  else .error "FitterStepAlign:  Invalid translation"

/-- The argument assertion of `createFieldsTransformations` (lines 33-35):
`(components_count == 3) and (len(rotation_angles) == components_count) and
isinstance(scale_value, float) and
(len(translation_offsets) == components_count)`. -/
def createFieldsTransformationsCheck (componentsCount : Nat) (rotationAngles : List PyNum)
    (scaleValue : JValue) (translationOffsets : List PyNum) : Bool :=
  componentsCount == 3 && rotationAngles.length == componentsCount &&
    scaleValue.isFloatInstance && translationOffsets.length == componentsCount

/-- Rotation matrix about the z-axis (azimuth). -/
noncomputable def rotZ (t : ℝ) : Matrix (Fin 3) (Fin 3) ℝ :=
  !![Real.cos t, -Real.sin t, 0;
     Real.sin t, Real.cos t, 0;
     0, 0, 1]

/-- Rotation matrix about the y-axis (elevation). -/
noncomputable def rotY (t : ℝ) : Matrix (Fin 3) (Fin 3) ℝ :=
  !![Real.cos t, 0, Real.sin t;
     0, 1, 0;
     -Real.sin t, 0, Real.cos t]

/-- Rotation matrix about the x-axis (roll). -/
noncomputable def rotX (t : ℝ) : Matrix (Fin 3) (Fin 3) ℝ :=
  !![1, 0, 0;
     0, Real.cos t, -Real.sin t;
     0, Real.sin t, Real.cos t]

/-- Modelled from the spec: `create_field_euler_angles_rotation_matrix`
from `opencmiss.utils.zinc.field` is not part of this repository.  The spec
fixes it as the rotation matrix of the Euler sequence: first about the
z-axis by angle 0 (azimuth), then about the rotated y-axis by angle 1
(elevation), then about the rotated x-axis by angle 2 (roll).  Its entries
are written out explicitly here. -/
noncomputable def eulerAnglesRotationMatrix (a : Fin 3 → ℝ) : Matrix (Fin 3) (Fin 3) ℝ :=
  !![Real.cos (a 0) * Real.cos (a 1),
     -Real.sin (a 0) * Real.cos (a 2) + Real.cos (a 0) * Real.sin (a 1) * Real.sin (a 2),
     Real.sin (a 0) * Real.sin (a 2) + Real.cos (a 0) * Real.sin (a 1) * Real.cos (a 2);
     Real.sin (a 0) * Real.cos (a 1),
     Real.cos (a 0) * Real.cos (a 2) + Real.sin (a 0) * Real.sin (a 1) * Real.sin (a 2),
     -Real.cos (a 0) * Real.sin (a 2) + Real.sin (a 0) * Real.sin (a 1) * Real.cos (a 2);
     -Real.sin (a 1),
     Real.cos (a 1) * Real.sin (a 2),
     Real.cos (a 1) * Real.cos (a 2)]

/-- The transformed coordinates built by `createFieldsTransformations`
(lines 39-45), applied to one point of the 3-component coordinate field:
`rotated_coordinates*scale + (translation if (translation_scale_factor == 1.0)
else translation*[translation_scale_factor]*3)` where
`rotated_coordinates = rotation_matrix * coordinates`. -/
noncomputable def createFieldsTransformationsCoords (rotationAngles : Fin 3 → ℝ)
    (scaleValue : ℝ) (translationOffsets : Fin 3 → ℝ) (translationScaleFactor : ℝ)
    (coordinates : Fin 3 → ℝ) : Fin 3 → ℝ :=
  fun i =>
    (eulerAnglesRotationMatrix rotationAngles).mulVec coordinates i * scaleValue +
      (if translationScaleFactor = 1 then translationOffsets i
       else translationOffsets i * translationScaleFactor)

/-- Python `str.strip()`: drop leading and trailing whitespace characters. -/
def stripChars (l : List Char) : List Char :=
  ((l.dropWhile Char.isWhitespace).reverse.dropWhile Char.isWhitespace).reverse

/-- Python `name.strip().casefold()` (line 190), with ASCII case-folding,
written over the character list so it evaluates by kernel reduction. -/
def stripCasefold (s : String) : String :=
  String.mk ((stripChars s.data).map Char.toLower)

/-- Python dict assignment `m[k] = v`: update in place when the key exists,
else append in insertion order. -/
def dictSet {β : Type} (m : List (String × β)) (k : String) (v : β) : List (String × β) :=
  if m.any (fun p => p.1 == k) then
    m.map (fun p => if p.1 == k then (k, v) else p)
  else m ++ [(k, v)]

/-- State of the marker-matching loop in `FitterStepAlign._doAlignMarkers`
(lines 186-203): the correspondence map built so far, the remaining data
marker dict, and the diagnostic messages printed so far. -/
structure MatchState (α : Type) where
  markerMap : List (String × α × α)
  dataMarkers : List (String × α)
  messages : List String
deriving DecidableEq

/-- One iteration of the outer loop of `_doAlignMarkers` (lines 188-200), for
a single model marker.  Note that `dataMarkers.pop(dataName)` (line 196) is
executed only when `writeDiagnostics` holds, exactly as in the source. -/
def doAlignMarkersStep {α : Type} (writeDiagnostics : Bool) (st : MatchState α)
    (modelName : String) (modelPoint : α) : MatchState α :=
  let matchName := stripCasefold modelName
  match st.dataMarkers.find? (fun p => stripCasefold p.1 == matchName) with
  | some (dataName, dataPoint) =>
    let markerMap := dictSet st.markerMap modelName (modelPoint, dataPoint)
    if writeDiagnostics then
      { markerMap := markerMap,
        dataMarkers := st.dataMarkers.eraseP (fun p => p.1 == dataName),
        messages := st.messages ++
          ["Align:  Model marker \x27" ++ modelName ++ "\x27 found in data" ++
            (if dataName != modelName then " as \x27" ++ dataName ++ "\x27" else "")] }
    else { st with markerMap := markerMap }
  | none =>
    if writeDiagnostics then
      { st with messages := st.messages ++
          ["Align:  Model marker \x27" ++ modelName ++ "\x27 not found in data"] }
    else st

/-- The marker-matching phase of `FitterStepAlign._doAlignMarkers`
(lines 186-203): fold the per-model-marker step over the model markers in
enumeration order, then report remaining unmatched data markers when
diagnostics are enabled. -/
def doAlignMarkers {α : Type} (diagnosticLevel : Nat)
    (modelMarkers : List (String × α)) (dataMarkers : List (String × α)) : MatchState α :=
  let writeDiagnostics : Bool := decide (diagnosticLevel > 0)
  let st := modelMarkers.foldl
    (fun st p => doAlignMarkersStep writeDiagnostics st p.1 p.2)
    ⟨[], dataMarkers, []⟩
  if writeDiagnostics then
    { st with messages := st.messages ++
        st.dataMarkers.map (fun p => "Align:  Data marker \x27" ++ p.1 ++ "\x27 not found in model") }
  else st

/-- `FitterStepAlign._optimiseAlignment` (lines 207-297).  The zinc
region/field setup, the least-squares optimiser, and the extraction and
data-scale rescaling of the solution are the external solver collaborator,
abstracted as `solve` (with `none` modelling the `optimisation failed`
assert at line 290).  The leading assert on the number of matched markers
(line 214) is embedded exactly, including its message. -/
def FitterStepAlign.optimiseAlignment {α : Type}
    (solve : List (String × α × α) → Option (JValue × JValue × JValue))
    (s : FitterStepAlign) (markerMap : List (String × α × α)) :
    FitterStepAlign × Option String :=
  if markerMap.length ≥ 3 then
    match solve markerMap with
    | some (r, sc, t) => ({ s with rotation := r, scale := sc, translation := t }, none)
    | none => (s, some "Align:  Alignment to markers optimisation failed")
  else
    (s, some ("Align:  Only " ++ toString markerMap.length ++ " markers - need at least 3"))

/-- C1: the claim that the diagnostic/verbosity level controls only whether
messages are emitted is refuted by the code: on model markers Apex and APEX
and the single data marker apex, the marker correspondence map produced by
the matching step differs between diagnostic level 0 and level 1, because
the matched data entry is removed from further consideration (line 196) only
inside the diagnostics branch. -/
theorem doAlignMarkers_markerMap_depends_on_diagnosticLevel :
    (doAlignMarkers 0 [("Apex", (1:Nat)), ("APEX", 2)] [("apex", 10)]).markerMap =
      [("Apex", 1, 10), ("APEX", 2, 10)] ∧
    (doAlignMarkers 1 [("Apex", (1:Nat)), ("APEX", 2)] [("apex", 10)]).markerMap =
      [("Apex", 1, 10)] ∧
    (doAlignMarkers 0 [("Apex", (1:Nat)), ("APEX", 2)] [("apex", 10)]).markerMap ≠
      (doAlignMarkers 1 [("Apex", (1:Nat)), ("APEX", 2)] [("apex", 10)]).markerMap :=
  ⟨by decide, by decide, by decide⟩

/-- C2: the claim that every data marker is matched to at most one model
marker is refuted by the code at diagnostic level 0: the distinct model
markers Apex and APEX, whose normalized names both match the single data
marker apex, are both paired with that same data entry, because the matched
entry is removed from consideration only when diagnostics are enabled. -/
theorem doAlignMarkers_dataMarker_matched_twice :
    "Apex" ≠ "APEX" ∧
    stripCasefold "Apex" = stripCasefold "APEX" ∧
    (doAlignMarkers 0 [("Apex", (1:Nat)), ("APEX", 2)] [("apex", 10)]).markerMap =
      [("Apex", 1, 10), ("APEX", 2, 10)] :=
  ⟨by decide, by decide, by decide⟩

/-- C3: for every correspondence map with fewer than 3 matched marker pairs,
`_optimiseAlignment` fails with an error reporting the actual match count,
and the step's stored rotation, scale and translation are returned exactly
as they were before the run, whatever the external solver would do. -/
theorem optimiseAlignment_insufficient_markers {α : Type}
    (solve : List (String × α × α) → Option (JValue × JValue × JValue))
    (s : FitterStepAlign) (markerMap : List (String × α × α))
    (h : markerMap.length < 3) :
    FitterStepAlign.optimiseAlignment solve s markerMap =
      (s, some ("Align:  Only " ++ toString markerMap.length ++
        " markers - need at least 3")) := by
  unfold FitterStepAlign.optimiseAlignment
  rw [if_neg (by omega)]

/-- Witness for C3 at the empty correspondence map. -/
theorem optimiseAlignment_insufficient_markers_witness :
    ([] : List (String × Nat × Nat)).length < 3 ∧
    FitterStepAlign.optimiseAlignment (fun _ => none) .init
        ([] : List (String × Nat × Nat)) =
      (.init, some "Align:  Only 0 markers - need at least 3") :=
  ⟨by decide, optimiseAlignment_insufficient_markers _ _ _ (by decide)⟩

/-- C5 counterexample: `createFieldsTransformations` does not reject or flag
a zero scale value: its argument assertion accepts the float 0.0, and the
resulting transform is degenerate, sending every coordinate of the point
(1, 2, 3) to 0. -/
theorem createFieldsTransformations_accepts_scale_zero :
    createFieldsTransformationsCheck 3 [.float 0, .float 0, .float 0]
      (.num (.float 0)) [.float 0, .float 0, .float 0] = true ∧
    createFieldsTransformationsCoords (fun _ => 0) 0 (fun _ => 0) 1
      ![1, 2, 3] = fun _ => 0 := by
  refine ⟨by decide, funext fun i => ?_⟩
  simp [createFieldsTransformationsCoords]

/-- C5 amended: `createFieldsTransformations` checks only the component
count, the parameter lengths and that the scale value is a float; every
float scale value, zero and negative values included, passes the check
unrejected and unflagged. -/
theorem createFieldsTransformationsCheck_scale_unrestricted (q : ℚ)
    (rot trans : List PyNum) (hr : rot.length = 3) (ht : trans.length = 3) :
    createFieldsTransformationsCheck 3 rot (.num (.float q)) trans = true := by
  simp [createFieldsTransformationsCheck, hr, ht, JValue.isFloatInstance]

/-- Witness for the amended C5 at scale -1.0. -/
theorem createFieldsTransformationsCheck_scale_unrestricted_witness :
    ([PyNum.float 0, .float 0, .float 0].length = 3) ∧
    createFieldsTransformationsCheck 3 [.float 0, .float 0, .float 0]
      (.num (.float (-1))) [.float 0, .float 0, .float 0] = true :=
  ⟨by decide, createFieldsTransformationsCheck_scale_unrestricted (-1) _ _
    (by decide) (by decide)⟩

/-- C6: for every step state, encode then decode then encode yields a dict
value-for-value identical to the first encoding, and decoding fails with an
error whenever the type-tag key is absent from the input dict. -/
theorem settings_encode_decode_encode (s : FitterStepAlign)
    (dct : List (String × JValue)) (h : dictLookup dct jsonTypeId = none) :
    (FitterStepAlign.decodeSettingsJSONDict s.encodeSettingsJSONDict).map
        FitterStepAlign.encodeSettingsJSONDict = .ok s.encodeSettingsJSONDict ∧
    FitterStepAlign.decodeSettingsJSONDict dct = .error "AssertionError" := by
  refine ⟨rfl, ?_⟩
  simp [FitterStepAlign.decodeSettingsJSONDict, h]

/-- Witness for C6 at the initial step state and the empty dict. -/
theorem settings_encode_decode_encode_witness :
    dictLookup [] jsonTypeId = none ∧
    ((FitterStepAlign.decodeSettingsJSONDict
          FitterStepAlign.init.encodeSettingsJSONDict).map
        FitterStepAlign.encodeSettingsJSONDict =
      .ok FitterStepAlign.init.encodeSettingsJSONDict ∧
    FitterStepAlign.decodeSettingsJSONDict [] = .error "AssertionError") :=
  ⟨rfl, settings_encode_decode_encode .init [] rfl⟩

/-- C10: an integer-valued scale (here any `int n`) is accepted and stored
without conversion by `setScale` and by `decodeSettingsJSONDict`, yet the
argument assertion of `createFieldsTransformations` fails on it, whatever
the component count and parameter lists, because of
`isinstance(scale_value, float)`. -/
theorem setScale_int_breaks_transformations_check (s : FitterStepAlign)
    (n : Int) (a r t : JValue) (comps : Nat) (rot trans : List PyNum)
    (h : JValue.pyEq (.num (.int n)) s.scale = false) :
    s.setScale (.num (.int n)) = ({ s with scale := .num (.int n) }, true) ∧
    FitterStepAlign.decodeSettingsJSONDict
        [(jsonTypeId, .bool true), ("alignMarkers", a), ("rotation", r),
         ("scale", .num (.int n)), ("translation", t)] =
      .ok { alignMarkers := a, rotation := r, scale := .num (.int n),
            translation := t } ∧
    createFieldsTransformationsCheck comps rot (.num (.int n)) trans = false := by
  refine ⟨?_, rfl, ?_⟩
  · simp [FitterStepAlign.setScale, h]
  · simp [createFieldsTransformationsCheck, JValue.isFloatInstance]

/-- Witness for C10 at scale 2 on the initial state (stored scale 1.0). -/
theorem setScale_int_breaks_transformations_check_witness :
    JValue.pyEq (.num (.int 2)) FitterStepAlign.init.scale = false ∧
    (FitterStepAlign.init.setScale (.num (.int 2)) =
      ({ FitterStepAlign.init with scale := .num (.int 2) }, true) ∧
    FitterStepAlign.decodeSettingsJSONDict
        [(jsonTypeId, .bool true), ("alignMarkers", .bool false),
         ("rotation", .numList []), ("scale", .num (.int 2)),
         ("translation", .numList [])] =
      .ok { alignMarkers := .bool false, rotation := .numList [],
            scale := .num (.int 2), translation := .numList [] } ∧
    createFieldsTransformationsCheck 3 [] (.num (.int 2)) [] = false) :=
  ⟨by decide, setScale_int_breaks_transformations_check .init 2 _ _ _ 3 [] []
    (by decide)⟩

/-- C4: for every 3-component coordinate point, every rotation-angle and
translation vector of length 3, every scale value and every translation
scale factor, the transformed coordinates built by
`createFieldsTransformations` equal
scale * (R(angles) * C) + factor * translation, where R is the rotation
matrix of the fixed Euler sequence: first about the z-axis by angle 0, then
about the rotated y-axis by angle 1, then about the rotated x-axis by
angle 2 (rotate, then scale, then translate). -/
theorem createFieldsTransformations_rotate_scale_translate (a : Fin 3 → ℝ)
    (s f : ℝ) (t C : Fin 3 → ℝ) :
    createFieldsTransformationsCoords a s t f C =
      fun i => s * ((rotZ (a 0) * rotY (a 1) * rotX (a 2)).mulVec C) i + f * t i := by
  have hM : eulerAnglesRotationMatrix a = rotZ (a 0) * rotY (a 1) * rotX (a 2) := by
    rw [rotZ, rotY, rotX, Matrix.mul_fin_three, Matrix.mul_fin_three,
      eulerAnglesRotationMatrix]
    ext i j
    fin_cases i <;> fin_cases j <;>
      simp only [Matrix.cons_val', Matrix.cons_val_zero, Matrix.cons_val_one,
        Matrix.head_cons, Matrix.empty_val', Matrix.cons_val_fin_one,
        Matrix.head_fin_const, Matrix.cons_val_two, Matrix.vecHead, Matrix.vecTail,
        Function.comp_apply] <;> ring_nf
  funext i
  by_cases hf : f = 1 <;> simp [createFieldsTransformationsCoords, hM, hf] <;> ring

/-- C9: applying the transformation with identity parameters (rotation
angles all zero, scale exactly 1, translation all zero, translation scale
factor 1) returns coordinates exactly equal to the input. -/
theorem createFieldsTransformations_identity (C : Fin 3 → ℝ) :
    createFieldsTransformationsCoords (fun _ => 0) 1 (fun _ => 0) 1 C = C := by
  funext i
  simp only [createFieldsTransformationsCoords, eulerAnglesRotationMatrix, Real.cos_zero,
    Real.sin_zero, Matrix.mulVec, Matrix.dotProduct, Fin.sum_univ_three]
  fin_cases i <;>
    simp only [Matrix.cons_val', Matrix.cons_val_zero, Matrix.cons_val_one,
      Matrix.head_cons, Matrix.empty_val', Matrix.cons_val_fin_one,
      Matrix.head_fin_const, Matrix.cons_val_two, Matrix.vecHead, Matrix.vecTail,
      Function.comp_apply] <;> (norm_num; try rfl)

/-- Python list equality agrees with element-wise `Forall₂` value equality. -/
theorem pyNumListEq_iff (xs ys : List PyNum) :
    pyNumListEq xs ys = true ↔ List.Forall₂ (fun a b => a.pyEq b = true) xs ys := by
  induction xs generalizing ys with
  | nil => cases ys <;> simp [pyNumListEq]
  | cons x xs ih => cases ys <;> simp [pyNumListEq, ih]

/-- `find?` returns the first entry satisfying the predicate: entries before
it all fail the predicate, entries after it are ignored. -/
theorem find?_append_first {α : Type} (f : α → Bool) (pre post : List α) (x : α)
    (hpre : ∀ e ∈ pre, f e = false) (hx : f x = true) :
    (pre ++ x :: post).find? f = some x := by
  induction pre with
  | nil => simp [List.find?_cons_of_pos, hx]
  | cons e es ih =>
    have he : f e = false := hpre e (List.mem_cons_self e es)
    rw [List.cons_append, List.find?_cons_of_neg _ (by simp [he])]
    exact ih (fun a ha => hpre a (List.mem_cons_of_mem e ha))

/-- C7: each setter returns true exactly when the supplied value differs
(by Python value equality) from the currently stored value, and returns
false leaving the state unchanged when they are equal; for the list-valued
rotation and translation the comparison is element-wise value equality
(`Forall₂`), not object identity. -/
theorem setters_report_value_change (s : FitterStepAlign) (v w : JValue)
    (r t r0 t0 : List PyNum) (hr : r.length = 3) (ht : t.length = 3)
    (hr0 : s.rotation = .numList r0) (ht0 : s.translation = .numList t0) :
    ((s.setAlignMarkers v).2 = true ↔ JValue.pyEq v s.alignMarkers = false) ∧
    ((s.setAlignMarkers v).2 = false → s.setAlignMarkers v = (s, false)) ∧
    ((s.setScale w).2 = true ↔ JValue.pyEq w s.scale = false) ∧
    ((s.setScale w).2 = false → s.setScale w = (s, false)) ∧
    (∃ pr, s.setRotation r = .ok pr ∧
      (pr.2 = true ↔ ¬ List.Forall₂ (fun a b => a.pyEq b = true) r r0) ∧
      (pr.2 = false → pr.1 = s)) ∧
    (∃ pt, s.setTranslation t = .ok pt ∧
      (pt.2 = true ↔ ¬ List.Forall₂ (fun a b => a.pyEq b = true) t t0) ∧
      (pt.2 = false → pt.1 = s)) := by
  refine ⟨?_, ?_, ?_, ?_, ?_, ?_⟩
  · unfold FitterStepAlign.setAlignMarkers
    cases h : JValue.pyEq v s.alignMarkers <;> simp [h]
  · unfold FitterStepAlign.setAlignMarkers
    cases h : JValue.pyEq v s.alignMarkers <;> simp [h]
  · unfold FitterStepAlign.setScale
    cases h : JValue.pyEq w s.scale <;> simp [h]
  · unfold FitterStepAlign.setScale
    cases h : JValue.pyEq w s.scale <;> simp [h]
  · unfold FitterStepAlign.setRotation
    rw [hr0]
    cases h : pyNumListEq r r0 <;>
      simp [hr, JValue.pyEq, h, ← pyNumListEq_iff]
  · unfold FitterStepAlign.setTranslation
    rw [ht0]
    cases h : pyNumListEq t t0 <;>
      simp [ht, JValue.pyEq, h, ← pyNumListEq_iff]

/-- Witness for C7 on the initial state: a differing align-markers flag, an
integer scale 2, a differing rotation list and a translation list equal
element-wise to the stored one. -/
theorem setters_report_value_change_witness :
    ([PyNum.float 1, .float 0, .float 0].length = 3 ∧
     [PyNum.float 0, .float 0, .float 0].length = 3 ∧
     FitterStepAlign.init.rotation = .numList [.float 0, .float 0, .float 0] ∧
     FitterStepAlign.init.translation = .numList [.float 0, .float 0, .float 0]) ∧
    (((FitterStepAlign.init.setAlignMarkers (.bool true)).2 = true ↔
        JValue.pyEq (.bool true) FitterStepAlign.init.alignMarkers = false) ∧
    ((FitterStepAlign.init.setAlignMarkers (.bool true)).2 = false →
        FitterStepAlign.init.setAlignMarkers (.bool true) = (FitterStepAlign.init, false)) ∧
    ((FitterStepAlign.init.setScale (.num (.int 2))).2 = true ↔
        JValue.pyEq (.num (.int 2)) FitterStepAlign.init.scale = false) ∧
    ((FitterStepAlign.init.setScale (.num (.int 2))).2 = false →
        FitterStepAlign.init.setScale (.num (.int 2)) = (FitterStepAlign.init, false)) ∧
    (∃ pr, FitterStepAlign.init.setRotation [.float 1, .float 0, .float 0] = .ok pr ∧
      (pr.2 = true ↔ ¬ List.Forall₂ (fun a b => a.pyEq b = true)
        [PyNum.float 1, .float 0, .float 0] [PyNum.float 0, .float 0, .float 0]) ∧
      (pr.2 = false → pr.1 = FitterStepAlign.init)) ∧
    (∃ pt, FitterStepAlign.init.setTranslation [.float 0, .float 0, .float 0] = .ok pt ∧
      (pt.2 = true ↔ ¬ List.Forall₂ (fun a b => a.pyEq b = true)
        [PyNum.float 0, .float 0, .float 0] [PyNum.float 0, .float 0, .float 0]) ∧
      (pt.2 = false → pt.1 = FitterStepAlign.init))) :=
  ⟨⟨by decide, by decide, rfl, rfl⟩,
    setters_report_value_change .init (.bool true) (.num (.int 2))
      [.float 1, .float 0, .float 0] [.float 0, .float 0, .float 0]
      [.float 0, .float 0, .float 0] [.float 0, .float 0, .float 0]
      (by decide) (by decide) rfl rfl⟩

/-- C8: marker name matching is case- and whitespace-insensitive, and the
first data entry (in the data set's enumeration order) whose trimmed,
case-folded name equals the model name's normalized form is the one paired:
for a model marker m whose normalized name matches no entry of `pre`,
matches d, and regardless of any later matches in `post`, the matching step
records exactly (m, p, q). -/
theorem markerMatch_normalized_first_wins {α : Type} (diag : Nat) (m : String)
    (p : α) (pre post : List (String × α)) (d : String) (q : α)
    (hpre : ∀ e ∈ pre, stripCasefold e.1 ≠ stripCasefold m)
    (hd : stripCasefold d = stripCasefold m) :
    (doAlignMarkers diag [(m, p)] (pre ++ (d, q) :: post)).markerMap = [(m, p, q)] := by
  have hfind : (pre ++ (d, q) :: post).find?
      (fun e => stripCasefold e.1 == stripCasefold m) = some (d, q) :=
    find?_append_first _ _ _ _ (fun e he => by simp [hpre e he]) (by simp [hd])
  unfold doAlignMarkers
  simp only [List.foldl]
  unfold doAlignMarkersStep
  dsimp only
  rw [hfind]
  cases hdg : decide (diag > 0) <;> simp [hdg, dictSet]

/-- Witness for C8: the model marker Apex is paired with the data marker
named " apex " (case and surrounding whitespace differ), chosen as the first
normalized match ahead of a later matching entry APEX, past a non-matching
entry zz. -/
theorem markerMatch_normalized_first_wins_witness :
    (∀ e ∈ [("zz", (0:Nat))], stripCasefold e.1 ≠ stripCasefold "Apex") ∧
    stripCasefold " apex " = stripCasefold "Apex" ∧
    (doAlignMarkers 0 [("Apex", (3:Nat))]
        ([("zz", 0)] ++ (" apex ", 5) :: [("APEX", 7)])).markerMap =
      [("Apex", 3, 5)] :=
  ⟨by decide, by decide,
    markerMatch_normalized_first_wins 0 "Apex" 3 [("zz", 0)] [("APEX", 7)]
      " apex " 5 (by decide) (by decide)⟩

end ScaffoldFitter
